import Mathlib

/-!
Shallow embedding of the `editor-js-paragraph-extended` repository.

The repository ships two near-identical block-tool classes:
`ParagraphEx` in `src/src/index.js` and `Paragraph` in `src/unnamed/part_000`.
Both hold a raw JavaScript data object `this._data` whose `text` and
`alignment` fields may be `undefined` (modelled as `Option String`), and a
DOM element whose serialized markup `innerHTML` is a plain string.

JavaScript-specific behaviour is made explicit:
  * `x || y` on string-or-undefined values treats `undefined` and `""` as
    falsy (`jsOr`, `jsOrStr`);
  * `a + b` string concatenation coerces `undefined` to `"undefined"`
    (`jsToString`, `jsAdd`);
  * accessing `.trim()` on an `undefined` field throws a `TypeError`;
    fallible operations therefore return `Option` with `none` as the
    thrown-error outcome.
-/

/-- A JavaScript `ParagraphData` object: both fields may be `undefined`. -/
structure JsData where
  text : Option String
  alignment : Option String
deriving Repr, DecidableEq

/-- The `config` object handed to the constructor; every recognised field may
be absent. -/
structure ParagraphConfig where
  placeholder : Option String
  preserveBlank : Option Bool
  defaultAlignment : Option String
deriving Repr, DecidableEq

/-- The object literal returned by `save`: `text` is read from the element's
`innerHTML` (always a string), `alignment` is read from `this._data` and may
be `undefined`. -/
structure SavedData where
  text : String
  alignment : Option String
deriving Repr, DecidableEq

/-- Presence of the four alignment CSS modifier classes
`ce-paragraph--left/center/right/justify` on the root element (other classes
on the element, such as the wrapper class, are not alignment modifiers and
are not tracked). Also reused for the active state of the four settings
buttons. -/
structure AlignFlags where
  left : Bool
  center : Bool
  right : Bool
  justify : Bool
deriving Repr, DecidableEq

/-- Number of flags that are set. -/
def AlignFlags.count (f : AlignFlags) : Nat :=
  (if f.left then 1 else 0) + (if f.center then 1 else 0) +
  (if f.right then 1 else 0) + (if f.justify then 1 else 0)

/-- `classList.toggle(cssAlignment[name], name === a)` performed for each of
the four names: exactly the class matching `a` ends up present. `a = none`
models comparison against `undefined`, which matches no name. -/
def alignIndicator (a : Option String) : AlignFlags where
  left := a = some "left"
  center := a = some "center"
  right := a = some "right"
  justify := a = some "justify"

/-- JavaScript `x || y` for two string-or-undefined values: `undefined` and
the empty string are falsy. -/
def jsOr : Option String → Option String → Option String
  | some s, b => if s = "" then b else some s
  | none, b => b

/-- JavaScript `x || y` where the fallback is a definite string. -/
def jsOrStr : Option String → String → String
  | some s, b => if s = "" then b else s
  | none, b => b

/-- JavaScript string coercion of a string-or-undefined value, as performed
by the `+` operator. -/
def jsToString : Option String → String
  | some s => s
  | none => "undefined"

/-- JavaScript `a + b` where at least one operand is a string. -/
def jsAdd (a b : Option String) : String :=
  jsToString a ++ jsToString b

/-- Instance state shared by both class variants (their data-path fields are
identical): the raw `_data` object, the element's serialized markup, the
alignment modifier classes on the element, `_preserveBlank`, `_placeholder`
and the retained `config`. -/
structure BlockState where
  jsdata : JsData
  innerHTML : String
  alignClasses : AlignFlags
  preserveBlankFlag : Bool
  placeholderStr : String
  config : ParagraphConfig
deriving Repr, DecidableEq

namespace ParagraphEx

/-- `static get DEFAULT_PLACEHOLDER() { return ''; }` -/
def DEFAULT_PLACEHOLDER : String := ""

/-- `static get DEFAULT_ALIGNMENT() { return 'left'; }` -/
def DEFAULT_ALIGNMENT : String := "left"

/-- `set data(data)`: `this._data = data || {}` followed by
`this._element.innerHTML = this._data.text || ''`. The argument may be any
JavaScript value; `none` models `undefined`/`null`, for which `data || {}`
substitutes the empty object. -/
def setData (d : Option JsData) (st : BlockState) : BlockState :=
  let nd := d.getD { text := none, alignment := none }
  { st with jsdata := nd, innerHTML := jsOrStr nd.text "" }

/-- `get data()`: `this._data.text = this._element.innerHTML; return
this._data` — returns the updated object together with the mutated state. -/
def getData (st : BlockState) : JsData × BlockState :=
  let nd : JsData := { st.jsdata with text := some st.innerHTML }
  (nd, { st with jsdata := nd })

/-- The constructor's data path: `_placeholder`, the defaulted `_data`
literal, `drawView` (which adds `this._CSS.alignment[this._data.alignment]`
to the element's class list — adding no alignment modifier class when that
lookup is undefined), `_preserveBlank`, and the final `this.data = data;`
which re-assigns the raw input through the `data` setter. -/
def construct (data : JsData) (config : ParagraphConfig) : BlockState :=
  let ph := if jsOrStr config.placeholder "" = "" then DEFAULT_PLACEHOLDER
            else jsOrStr config.placeholder ""
  let initData : JsData :=
    { text := some (jsOrStr data.text "")
      alignment := some (jsOrStr (jsOr data.alignment config.defaultAlignment)
                          DEFAULT_ALIGNMENT) }
  let st0 : BlockState :=
    { jsdata := initData
      innerHTML := ""
      alignClasses := alignIndicator initData.alignment
      preserveBlankFlag := config.preserveBlank.getD false
      placeholderStr := ph
      config := config }
  setData (some data) st0

/-- `onKeyUp(e)`: returns early unless `e.code` is `Backspace` or `Delete`;
otherwise clears `innerHTML` when the element's `textContent` — a DOM value
observed at event time, supplied here as an input — is empty. -/
def onKeyUp (code : String) (textContent : String) (st : BlockState) :
    BlockState :=
  if code ≠ "Backspace" ∧ code ≠ "Delete" then st
  else if textContent = "" then { st with innerHTML := "" }
  else st

/-- `merge(data)`: assigns `{text: this.data.text + data.text, alignment:
this.data.alignment}` through the `data` setter; the getter first syncs
`_data.text` with the element markup. -/
def merge (input : JsData) (st : BlockState) : BlockState :=
  let (d, st1) := getData st
  setData (some { text := some (jsAdd d.text input.text)
                  alignment := d.alignment }) st1

/-- `validate(savedData)`: `!(savedData.text.trim() === '' &&
!this._preserveBlank)`. Calling `.trim()` on an absent `text` field throws a
`TypeError`, modelled as `none`. -/
def validate (st : BlockState) (savedData : JsData) : Option Bool :=
  match savedData.text with
  | none => none
  | some s => some (!(s.trim = "" && !st.preserveBlankFlag))

/-- `save(toolsContent)` with `toolsContent` the rendered element: returns
`{text: toolsContent.innerHTML, alignment: this.data.alignment}`. -/
def save (st : BlockState) : SavedData :=
  let d := (getData st).1
  { text := st.innerHTML, alignment := d.alignment }

/-- `onPaste(event)`: assigns `{text: event.detail.data.innerHTML, alignment:
event.detail.data.style.textAlign || this.config.defaultAlignment ||
ParagraphEx.DEFAULT_ALIGNMENT}` through the `data` setter. `style.textAlign`
is always a string, empty when no inline style is set. -/
def onPaste (pastedHTML : String) (textAlign : String) (st : BlockState) :
    BlockState :=
  setData (some { text := some pastedHTML
                  alignment := some (jsOrStr (jsOr (some textAlign)
                                      st.config.defaultAlignment)
                                      DEFAULT_ALIGNMENT) }) st

end ParagraphEx

namespace Paragraph

/-- `static get DEFAULT_PLACEHOLDER() { return ''; }` -/
def DEFAULT_PLACEHOLDER : String := ""

/-- `static get ALIGNMENTS()`: the four allowed alignment names. -/
def ALIGNMENTS : List String := ["left", "center", "right", "justify"]

/-- `static get DEFAULT_ALIGNMENT() { return Paragraph.ALIGNMENTS.left; }` -/
def DEFAULT_ALIGNMENT : String := "left"

/-- `set data(data)` of the `Paragraph` variant — textually identical to the
`ParagraphEx` one. -/
def setData (d : Option JsData) (st : BlockState) : BlockState :=
  let nd := d.getD { text := none, alignment := none }
  { st with jsdata := nd, innerHTML := jsOrStr nd.text "" }

/-- `get data()` of the `Paragraph` variant. -/
def getData (st : BlockState) : JsData × BlockState :=
  let nd : JsData := { st.jsdata with text := some st.innerHTML }
  (nd, { st with jsdata := nd })

/-- Constructor data path of the `Paragraph` variant, ending in the same
`this.data = data;` raw re-assignment. -/
def construct (data : JsData) (config : ParagraphConfig) : BlockState :=
  let ph := if jsOrStr config.placeholder "" = "" then DEFAULT_PLACEHOLDER
            else jsOrStr config.placeholder ""
  let initData : JsData :=
    { text := some (jsOrStr data.text "")
      alignment := some (jsOrStr (jsOr data.alignment config.defaultAlignment)
                          DEFAULT_ALIGNMENT) }
  let st0 : BlockState :=
    { jsdata := initData
      innerHTML := ""
      alignClasses := alignIndicator initData.alignment
      preserveBlankFlag := config.preserveBlank.getD false
      placeholderStr := ph
      config := config }
  setData (some data) st0

/-- `onKeyUp(e)` of the `Paragraph` variant. -/
def onKeyUp (code : String) (textContent : String) (st : BlockState) :
    BlockState :=
  if code ≠ "Backspace" ∧ code ≠ "Delete" then st
  else if textContent = "" then { st with innerHTML := "" }
  else st

/-- `merge(data)` of the `Paragraph` variant. -/
def merge (input : JsData) (st : BlockState) : BlockState :=
  let (d, st1) := getData st
  setData (some { text := some (jsAdd d.text input.text)
                  alignment := d.alignment }) st1

/-- `validate(savedData)` of the `Paragraph` variant. -/
def validate (st : BlockState) (savedData : JsData) : Option Bool :=
  match savedData.text with
  | none => none
  | some s => some (!(s.trim = "" && !st.preserveBlankFlag))

/-- `save(toolsContent)` of the `Paragraph` variant. -/
def save (st : BlockState) : SavedData :=
  let d := (getData st).1
  { text := st.innerHTML, alignment := d.alignment }

/-- `onPaste(event)` of the `Paragraph` variant. -/
def onPaste (pastedHTML : String) (textAlign : String) (st : BlockState) :
    BlockState :=
  setData (some { text := some pastedHTML
                  alignment := some (jsOrStr (jsOr (some textAlign)
                                      st.config.defaultAlignment)
                                      DEFAULT_ALIGNMENT) }) st

/-- The name of the i-th tunes button, in the order `this._tunesButtons` is
built: left, center, right, justify. -/
def tuneName : Fin 4 → String
  | 0 => "left"
  | 1 => "center"
  | 2 => "right"
  | 3 => "justify"

/-- Settings-panel state of the `Paragraph` variant: the block itself plus
the `cdx-settings-button--active` state of the four buttons built by
`renderSettings`. -/
structure SettingsState where
  blk : BlockState
  buttons : AlignFlags
deriving Repr, DecidableEq

/-- The initial active states `renderSettings` paints:
`button.classList.toggle(active, tune.name === (this.data.alignment ||
this.config.defaultAlignment))` for each button; the `data` getter syncs
`_data.text` first. -/
def renderSettingsButtons (st : BlockState) : SettingsState :=
  let (d, st1) := getData st
  { blk := st1
    buttons := alignIndicator (jsOr d.alignment st1.config.defaultAlignment) }

/-- `_toggleTune(tune)`: re-selecting the current alignment resets it to
`this.config.defaultAlignment` (possibly `undefined`), any other selection
stores the tune name. `this.data.alignment = x` goes through the `data`
getter (syncing `_data.text`) and then mutates the field in place. -/
def toggleTune (tune : String) (st : BlockState) : BlockState :=
  let (d, st1) := getData st
  if d.alignment = some tune then
    { st1 with jsdata := { st1.jsdata with
                             alignment := st1.config.defaultAlignment } }
  else
    { st1 with jsdata := { st1.jsdata with alignment := some tune } }

/-- The click handler `renderSettings` installs on button `i`: it calls
`_toggleTune(name)` and then, for each of the four names, toggles the
button's active class and the element's alignment modifier class with force
`name === this.data.alignment`. -/
def clickTune (i : Fin 4) (s : SettingsState) : SettingsState :=
  let blk1 := toggleTune (tuneName i) s.blk
  let a := blk1.jsdata.alignment
  { blk := { blk1 with alignClasses := alignIndicator a }
    buttons := alignIndicator a }

end Paragraph

/-- Helper: toggling the four alignment classes with force `name === a` can
leave at most one of them set, since the four names are distinct. -/
theorem alignIndicator_count_le_one (a : Option String) :
    (alignIndicator a).count ≤ 1 := by
  cases a with
  | none => decide
  | some s =>
    by_cases h1 : s = "left" <;> by_cases h2 : s = "center" <;>
      by_cases h3 : s = "right" <;> by_cases h4 : s = "justify" <;>
        simp_all [alignIndicator, AlignFlags.count]

/-- Helper: when the compared value is one of the four tune names, exactly
one flag is set. -/
theorem alignIndicator_tuneName_count (i : Fin 4) :
    (alignIndicator (some (Paragraph.tuneName i))).count = 1 := by
  fin_cases i <;> decide

/-- C1 (code-bug exhibit): constructing with `data = {}` and immediately
saving the rendered element yields `text = ""` but `alignment = undefined`,
not the default alignment — with or without `config.defaultAlignment` — the
trailing `this.data = data;` in the constructor overwrites the defaulted
`_data` object with the raw input through the non-defaulting setter. -/
theorem construct_empty_save_alignment_undefined :
    ParagraphEx.save (ParagraphEx.construct ⟨none, none⟩ ⟨none, none, none⟩)
        = { text := "", alignment := none }
    ∧ ParagraphEx.save (ParagraphEx.construct ⟨none, none⟩
        ⟨none, none, some "center"⟩)
        = { text := "", alignment := none } := by
  decide

/-- C2 (counterexample): constructing with `alignment: "weird"` stores
`"weird"` — not one of the four enumerated values and not replaced by the
default — and constructing with `data = {}` leaves the stored `text` field
`undefined`, because the constructor ends by re-assigning the raw input. -/
theorem construct_stores_unknown_alignment_cex :
    (ParagraphEx.construct ⟨some "hi", some "weird"⟩
        ⟨none, none, none⟩).jsdata.alignment = some "weird"
    ∧ "weird" ∉ (["left", "center", "right", "justify"] : List String)
    ∧ (ParagraphEx.construct ⟨none, none⟩
        ⟨none, none, none⟩).jsdata.text = none := by
  decide

/-- C2 (amended): after construction the stored data object is exactly the
raw input — alignment kept verbatim (unknown values included) and text
possibly absent — while the element's markup, hence the `text` component of
every `save`, is always a string (missing input text renders as `""`);
`merge` keeps the stored alignment unchanged and always stores a string
text, and `onPaste` always stores a definite alignment string. -/
theorem construct_stores_raw_data :
    (∀ (data : JsData) (config : ParagraphConfig),
        (ParagraphEx.construct data config).jsdata = data
        ∧ (ParagraphEx.construct data config).innerHTML = jsOrStr data.text "")
    ∧ (∀ (st : BlockState), (ParagraphEx.save st).text = st.innerHTML)
    ∧ (∀ (input : JsData) (st : BlockState),
        (ParagraphEx.merge input st).jsdata.alignment = st.jsdata.alignment
        ∧ (ParagraphEx.merge input st).jsdata.text
            = some (jsAdd (some st.innerHTML) input.text))
    ∧ (∀ (html ta : String) (st : BlockState),
        (ParagraphEx.onPaste html ta st).jsdata.alignment
          = some (jsOrStr (jsOr (some ta) st.config.defaultAlignment)
                    ParagraphEx.DEFAULT_ALIGNMENT)) :=
  ⟨fun _ _ => ⟨rfl, rfl⟩, fun _ => rfl, fun _ _ => ⟨rfl, rfl⟩,
   fun _ _ _ => rfl⟩

/-- C3: for a constructed block, `validate` on saved data whose `text` is a
string `s` returns `false` exactly when the trimmed text is empty and the
configured `preserveBlank` (defaulting to `false` when omitted) is `false`,
and returns `true` in every other case. -/
theorem validate_false_iff_blank_not_preserved :
    ∀ (data : JsData) (config : ParagraphConfig) (al : Option String)
      (s : String),
      (ParagraphEx.validate (ParagraphEx.construct data config) ⟨some s, al⟩
          = some false
        ↔ s.trim = "" ∧ config.preserveBlank.getD false = false)
      ∧ (ParagraphEx.validate (ParagraphEx.construct data config) ⟨some s, al⟩
          = some true
        ↔ ¬(s.trim = "" ∧ config.preserveBlank.getD false = false)) := by
  intro data config al s
  have hpb : (ParagraphEx.construct data config).preserveBlankFlag
      = config.preserveBlank.getD false := rfl
  simp only [ParagraphEx.validate, hpb]
  by_cases h1 : s.trim = "" <;>
    cases h2 : config.preserveBlank.getD false <;>
      simp [h1, h2]

/-- C4: merging `{text: s}` into any block state appends `s` to the block's
current markup and leaves the alignment component of `save` unchanged. -/
theorem merge_concat_alignment_unchanged :
    ∀ (st : BlockState) (s : String) (al : Option String),
      (ParagraphEx.save (ParagraphEx.merge ⟨some s, al⟩ st)).text
          = st.innerHTML ++ s
      ∧ (ParagraphEx.save (ParagraphEx.merge ⟨some s, al⟩ st)).alignment
          = (ParagraphEx.save st).alignment := by
  intro st s al
  refine ⟨?_, rfl⟩
  show jsOrStr (some (jsAdd (some st.innerHTML) (some s))) ""
      = st.innerHTML ++ s
  by_cases h : st.innerHTML ++ s = "" <;>
    simp [jsOrStr, jsAdd, jsToString, h]

/-- C5: `onPaste` replaces the block text with the pasted element's inner
markup, and the alignment saved afterwards is the pasted inline
`text-align` value when non-empty, else the configured default when truthy,
else the hard-coded `"left"`. -/
theorem onPaste_replaces_text_and_alignment :
    ∀ (st : BlockState) (html ta : String),
      (ParagraphEx.save (ParagraphEx.onPaste html ta st)).text = html
      ∧ (ParagraphEx.save (ParagraphEx.onPaste html ta st)).alignment
          = some (jsOrStr (jsOr (some ta) st.config.defaultAlignment)
                    ParagraphEx.DEFAULT_ALIGNMENT)
      ∧ (ta ≠ "" →
          (ParagraphEx.save (ParagraphEx.onPaste html ta st)).alignment
            = some ta)
      ∧ (ta = "" → st.config.defaultAlignment = none →
          (ParagraphEx.save (ParagraphEx.onPaste html ta st)).alignment
            = some "left") := by
  intro st html ta
  refine ⟨?_, rfl, ?_, ?_⟩
  · show jsOrStr (some html) "" = html
    by_cases h : html = "" <;> simp [jsOrStr, h]
  · intro h
    show some (jsOrStr (jsOr (some ta) st.config.defaultAlignment)
        ParagraphEx.DEFAULT_ALIGNMENT) = some ta
    simp [jsOr, jsOrStr, h]
  · intro h hd
    subst h
    show some (jsOrStr (jsOr (some "") st.config.defaultAlignment)
        ParagraphEx.DEFAULT_ALIGNMENT) = some "left"
    simp [jsOr, jsOrStr, hd, ParagraphEx.DEFAULT_ALIGNMENT]

/-- C5 witness: pasting markup with inline `text-align: right` into a block
with no configured default alignment saves that markup with
`alignment = "right"`. -/
theorem onPaste_replaces_text_and_alignment_witness :
    (ParagraphEx.save (ParagraphEx.onPaste "<b>x</b>" "right"
        (ParagraphEx.construct ⟨none, none⟩ ⟨none, none, none⟩))).text
        = "<b>x</b>"
    ∧ (ParagraphEx.save (ParagraphEx.onPaste "<b>x</b>" "right"
        (ParagraphEx.construct ⟨none, none⟩ ⟨none, none, none⟩))).alignment
        = some "right" :=
  ⟨(onPaste_replaces_text_and_alignment
      (ParagraphEx.construct ⟨none, none⟩ ⟨none, none, none⟩)
      "<b>x</b>" "right").1,
   (onPaste_replaces_text_and_alignment
      (ParagraphEx.construct ⟨none, none⟩ ⟨none, none, none⟩)
      "<b>x</b>" "right").2.2.1 (by decide)⟩

/-- C6: a `Backspace` or `Delete` keystroke whose resulting visible text
content is empty clears the element markup, so the next `save` returns
`text = ""`; any other key code leaves the state completely unchanged. -/
theorem onKeyUp_clears_only_on_deletion :
    (∀ (st : BlockState) (code tc : String),
        code = "Backspace" ∨ code = "Delete" → tc = "" →
          (ParagraphEx.onKeyUp code tc st).innerHTML = ""
          ∧ (ParagraphEx.save (ParagraphEx.onKeyUp code tc st)).text = "")
    ∧ (∀ (st : BlockState) (code tc : String),
        code ≠ "Backspace" → code ≠ "Delete" →
          ParagraphEx.onKeyUp code tc st = st) := by
  constructor
  · intro st code tc hc htc
    have hne : ¬(code ≠ "Backspace" ∧ code ≠ "Delete") := by
      rcases hc with h | h <;> simp [h]
    constructor <;>
      simp [ParagraphEx.onKeyUp, ParagraphEx.save, ParagraphEx.getData,
        hne, htc]
  · intro st code tc h1 h2
    simp [ParagraphEx.onKeyUp, h1, h2]

/-- C6 witness: a `Backspace` on an emptied element clears the markup, while
an ordinary key leaves the state untouched. -/
theorem onKeyUp_clears_only_on_deletion_witness :
    (ParagraphEx.onKeyUp "Backspace" ""
        (ParagraphEx.construct ⟨some "<br>", none⟩
          ⟨none, none, none⟩)).innerHTML = ""
    ∧ ParagraphEx.onKeyUp "KeyA" ""
        (ParagraphEx.construct ⟨some "<br>", none⟩ ⟨none, none, none⟩)
      = ParagraphEx.construct ⟨some "<br>", none⟩ ⟨none, none, none⟩ :=
  ⟨(onKeyUp_clears_only_on_deletion.1
      (ParagraphEx.construct ⟨some "<br>", none⟩ ⟨none, none, none⟩)
      "Backspace" "" (Or.inl rfl) rfl).1,
   onKeyUp_clears_only_on_deletion.2
      (ParagraphEx.construct ⟨some "<br>", none⟩ ⟨none, none, none⟩)
      "KeyA" "" (by decide) (by decide)⟩

/-- C7 (counterexample): with no configured `defaultAlignment`, a block
constructed with `alignment: "center"` whose active `center` control is
activated again ends with zero active controls and zero alignment modifier
classes on the root element — not exactly one, as the claim requires. -/
theorem click_active_tune_cex :
    (Paragraph.clickTune 1 (Paragraph.renderSettingsButtons
        (Paragraph.construct ⟨none, some "center"⟩
          ⟨none, none, none⟩))).buttons.count = 0
    ∧ (Paragraph.clickTune 1 (Paragraph.renderSettingsButtons
        (Paragraph.construct ⟨none, some "center"⟩
          ⟨none, none, none⟩))).blk.alignClasses.count = 0 := by
  decide

/-- C7 (amended): after activating any alignment control, the active-state
flags of the controls coincide with the alignment modifier classes on the
root element and at most one of each is set; exactly one is set whenever the
activated control differs from the stored alignment, or when a re-activated
control falls back to a configured `defaultAlignment` that is one of the
four tune names; re-activating the active control with no configured
default leaves zero set. -/
theorem clickTune_at_most_one_active :
    ∀ (s : Paragraph.SettingsState) (i : Fin 4),
      ((Paragraph.clickTune i s).buttons.count ≤ 1
        ∧ (Paragraph.clickTune i s).blk.alignClasses.count ≤ 1)
      ∧ (Paragraph.clickTune i s).buttons
          = (Paragraph.clickTune i s).blk.alignClasses
      ∧ (s.blk.jsdata.alignment ≠ some (Paragraph.tuneName i) →
          (Paragraph.clickTune i s).buttons.count = 1)
      ∧ (s.blk.jsdata.alignment = some (Paragraph.tuneName i) →
          s.blk.config.defaultAlignment = none →
          (Paragraph.clickTune i s).buttons.count = 0)
      ∧ (∀ (j : Fin 4),
          s.blk.jsdata.alignment = some (Paragraph.tuneName i) →
          s.blk.config.defaultAlignment = some (Paragraph.tuneName j) →
          (Paragraph.clickTune i s).buttons.count = 1) := by
  intro s i
  refine ⟨⟨?_, ?_⟩, rfl, ?_, ?_, ?_⟩
  · exact alignIndicator_count_le_one _
  · exact alignIndicator_count_le_one _
  · intro hne
    simp [Paragraph.clickTune, Paragraph.toggleTune, Paragraph.getData, hne,
      alignIndicator_tuneName_count]
  · intro heq hd
    simp [Paragraph.clickTune, Paragraph.toggleTune, Paragraph.getData, heq,
      hd]
    decide
  · intro j heq hd
    simp [Paragraph.clickTune, Paragraph.toggleTune, Paragraph.getData, heq,
      hd, alignIndicator_tuneName_count]

/-- C7 amended witness: activating `right` on a freshly constructed block
with no stored alignment yields exactly one active control, and
re-activating the active `center` control with no configured default yields
zero. -/
theorem clickTune_at_most_one_active_witness :
    (Paragraph.clickTune 2 (Paragraph.renderSettingsButtons
        (Paragraph.construct ⟨none, none⟩
          ⟨none, none, none⟩))).buttons.count = 1
    ∧ (Paragraph.clickTune 1 (Paragraph.renderSettingsButtons
        (Paragraph.construct ⟨none, some "center"⟩
          ⟨none, none, none⟩))).buttons.count = 0 :=
  ⟨(clickTune_at_most_one_active
      (Paragraph.renderSettingsButtons
        (Paragraph.construct ⟨none, none⟩ ⟨none, none, none⟩))
      2).2.2.1 (by decide),
   (clickTune_at_most_one_active
      (Paragraph.renderSettingsButtons
        (Paragraph.construct ⟨none, some "center"⟩ ⟨none, none, none⟩))
      1).2.2.2.1 (by decide) (by decide)⟩

/-- C8: for each of the four enumerated alignment values, constructing with
that alignment and immediately saving returns the same alignment, for every
input text and configuration. -/
theorem construct_save_alignment_roundtrip :
    ∀ (a : String), a ∈ (["left", "center", "right", "justify"] : List String) →
      ∀ (text : Option String) (config : ParagraphConfig),
        (ParagraphEx.save
            (ParagraphEx.construct ⟨text, some a⟩ config)).alignment
          = some a := by
  intro a _ text config
  rfl

/-- C8 witness: the round trip at alignment `"center"`. -/
theorem construct_save_alignment_roundtrip_witness :
    (ParagraphEx.save (ParagraphEx.construct ⟨none, some "center"⟩
        ⟨none, none, none⟩)).alignment = some "center" :=
  construct_save_alignment_roundtrip "center" (by decide) none
    ⟨none, none, none⟩

/-- C9: `validate` is total and boolean-valued exactly on saved data whose
`text` field is a string; on an absent `text` field the unguarded
`savedData.text.trim()` throws, modelled as the `none` outcome — reachable
at the public interface for every block state. -/
theorem validate_throws_on_missing_text :
    (∀ (st : BlockState) (al : Option String),
        ParagraphEx.validate st ⟨none, al⟩ = none)
    ∧ (∀ (st : BlockState) (s : String) (al : Option String),
        (ParagraphEx.validate st ⟨some s, al⟩).isSome = true) :=
  ⟨fun _ _ => rfl, fun _ _ _ => rfl⟩

/-- C10: the two class variants (`ParagraphEx` in `src/src/index.js` and
`Paragraph` in `src/unnamed/part_000`) compute identical results and
identical resulting states on the whole data path: constructor
initialization, `validate`, `merge`, `save`, `onPaste` and `onKeyUp`. -/
theorem variants_data_path_equivalent :
    (∀ (data : JsData) (config : ParagraphConfig),
        ParagraphEx.construct data config = Paragraph.construct data config)
    ∧ (∀ (st : BlockState) (sd : JsData),
        ParagraphEx.validate st sd = Paragraph.validate st sd)
    ∧ (∀ (input : JsData) (st : BlockState),
        ParagraphEx.merge input st = Paragraph.merge input st)
    ∧ (∀ (st : BlockState), ParagraphEx.save st = Paragraph.save st)
    ∧ (∀ (html ta : String) (st : BlockState),
        ParagraphEx.onPaste html ta st = Paragraph.onPaste html ta st)
    ∧ (∀ (code tc : String) (st : BlockState),
        ParagraphEx.onKeyUp code tc st = Paragraph.onKeyUp code tc st) :=
  ⟨fun _ _ => rfl, fun _ _ => rfl, fun _ _ => rfl, fun _ => rfl,
   fun _ _ _ => rfl, fun _ _ _ => rfl⟩
